import Mathlib

/-!
Verification of the tensor-man signing/verification core against its
specification.  The Rust sources are shallowly embedded: paths and file
contents are strings, the filesystem is a partial map from paths to
contents, and the cryptographic primitives (BLAKE2b-512 and Ed25519) are
abstract function parameters — the theorems that need their defining
properties take them as explicit hypotheses.
-/

deriving instance DecidableEq for Except

namespace TensorMan

/-! ## Character-list string primitives

Lean core's `String` operations (`splitOn`, `toLower`, `endsWith`, …) do
not reduce inside the kernel, so the string machinery the code needs is
re-implemented by structural recursion on the underlying character lists.
All Rust paths and names in the claims are ASCII, where these functions
agree with the Rust standard library ones they model. -/

/-- ASCII lowercasing of a single character
(model of `u8::to_ascii_lowercase`). -/
def lowerChar (c : Char) : Char :=
  if 'A' ≤ c && c ≤ 'Z' then Char.ofNat (c.toNat + 32) else c

/-- ASCII lowercasing of a string (model of `str::to_ascii_lowercase`). -/
def lowerStr (s : String) : String :=
  ⟨s.data.map lowerChar⟩

/-- Suffix test on character lists. -/
def listEndsWith (l pat : List Char) : Bool :=
  l.reverse.take pat.length == pat.reverse

/-- Suffix test on strings (model of `str::ends_with`). -/
def strEndsWith (s pat : String) : Bool :=
  listEndsWith s.data pat.data

/-- Prefix test on character lists. -/
def listStartsWith (l pat : List Char) : Bool :=
  l.take pat.length == pat

/-- Substring containment on character lists. -/
def listContainsSub (l pat : List Char) : Bool :=
  match l with
  | [] => listStartsWith [] pat
  | _ :: rest => listStartsWith l pat || listContainsSub rest pat

/-- Substring containment on strings (model of `str::contains`). -/
def strContains (s pat : String) : Bool :=
  listContainsSub s.data pat.data

/-- Split a character list at every occurrence of a separator character. -/
def splitChar (sep : Char) : List Char → List (List Char)
  | [] => [[]]
  | c :: rest =>
    let r := splitChar sep rest
    if c = sep then [] :: r
    else
      match r with
      | [] => [[c]]
      | h :: t => (c :: h) :: t

/-- Byte-lexicographic `≤` on character lists; on ASCII (and in fact on all
of UTF-8, whose byte order agrees with code-point order) this models the
derived `Ord` of Rust `String` and `PathBuf` used by `Vec::sort`. -/
def lexLe : List Char → List Char → Bool
  | [], _ => true
  | _ :: _, [] => false
  | c :: cs, d :: ds =>
    if c.toNat < d.toNat then true
    else if d.toNat < c.toNat then false
    else lexLe cs ds

/-- Byte-lexicographic `≤` on strings. -/
def strLe (a b : String) : Bool :=
  lexLe a.data b.data

/-! ## Path helpers (model of std::path::Path operations) -/

/-- Last `/`-separated component of a path, model of `Path::file_name`
(returns the whole string when there is no separator). -/
def fileName (p : String) : String :=
  match (splitChar '/' p.data).reverse with
  | [] => p
  | c :: _ => ⟨c⟩

/-- Model of `Path::extension`: the part of the file name after the final
dot; `none` when the file name has no dot, and `none` for a pure dot-file
such as `.gitignore` whose only dot is the leading one. -/
def extension (p : String) : Option String :=
  let r := (fileName p).data.reverse
  let e := r.takeWhile (fun c => c ≠ '.')
  if e.length = r.length then none
  else if r.drop (e.length + 1) = [] then none
  else some ⟨e.reverse⟩

/-- Extension lowered to ASCII lowercase with `none` defaulted to the empty
string: model of the chain
`extension().unwrap_or_default().to_str().unwrap_or("").to_ascii_lowercase()`. -/
def extLower (p : String) : String :=
  lowerStr ((extension p).getD "")

/-- Lowercased file name, model of the corresponding Rust chain in the
PyTorch handler. -/
def fileNameLower (p : String) : String :=
  lowerStr (fileName p)

/-- Join path components back with `/` separators. -/
def joinWithSlash : List (List Char) → List Char
  | [] => []
  | [c] => c
  | c :: cs => c ++ '/' :: joinWithSlash cs

/-- Model of `Path::parent`: `none` for the empty path and the root,
otherwise the path with its last component removed (the empty string for a
bare file name). -/
def parentDir (p : String) : Option String :=
  if p = "" ∨ p = "/" then none
  else some ⟨joinWithSlash ((splitChar '/' p.data).dropLast)⟩

/-- A path is relative when it does not start with `/`
(model of `Path::is_relative` for Unix paths). -/
def isRelativePath (p : String) : Bool :=
  !(listStartsWith p.data ['/'])

/-- Model of `Path::join` for the cases the code exercises:
resolve a relative name against a base directory. -/
def joinPath (base p : String) : String :=
  if base = "" then p else base ++ "/" ++ p

/-- Resolution of a referenced file name against a base directory:
relative names are joined, absolute names pass through.  This is the
`if p.is_relative() { base_path.join(p) } else { p }` pattern shared by the
SafeTensors and ONNX handlers. -/
def resolveRef (base p : String) : String :=
  if isRelativePath p then joinPath base p else p

/-! ## Data model: FileType and Scope (src/core/mod.rs, handlers/mod.rs) -/

/-- Closed tag set of supported formats, `FileType` in `src/core/mod.rs`. -/
inductive FileType where
  | unknown
  | safeTensors
  | onnx
  | gguf
  | pyTorch
  deriving DecidableEq

/-- Model of `FileType::is_safetensors`. -/
def FileType.is_safetensors : FileType → Bool
  | .safeTensors => true
  | _ => false

/-- Model of `FileType::is_onnx`. -/
def FileType.is_onnx : FileType → Bool
  | .onnx => true
  | _ => false

/-- Model of `FileType::is_gguf`. -/
def FileType.is_gguf : FileType → Bool
  | .gguf => true
  | _ => false

/-- Model of `FileType::is_pytorch`. -/
def FileType.is_pytorch : FileType → Bool
  | .pyTorch => true
  | _ => false

/-- Model of `Scope` in `src/core/handlers/mod.rs`. -/
inductive Scope where
  | inspection
  | signing
  deriving DecidableEq

/-! ## Handler ownership heuristics (`is_handler_for` of each handler) -/

/-- Model of `is_safetensors_index` in the SafeTensors handler: the file name ends
with `.safetensors.index.json` (case sensitive). -/
def is_safetensors_index (p : String) : Bool :=
  strEndsWith (fileName p) ".safetensors.index.json"

/-- Model of `SafeTensorsHandler::is_handler_for`: extension `safetensors` in both
scopes, index files additionally in signing scope only. -/
def safetensorsIsHandlerFor (p : String) (scope : Scope) : Bool :=
  let isSt := extLower p == "safetensors"
  match scope with
  | .inspection => isSt
  | .signing => isSt || is_safetensors_index p

/-- Model of `OnnxHandler::is_handler_for`: extension `onnx`, any scope. -/
def onnxIsHandlerFor (p : String) (_scope : Scope) : Bool :=
  extLower p == "onnx"

/-- Model of `GGUFHandler::is_handler_for`: extension `gguf`, any scope. -/
def ggufIsHandlerFor (p : String) (_scope : Scope) : Bool :=
  extLower p == "gguf"

/-- Model of `PyTorchHandler::is_handler_for`: extension `pt`/`pth`, or a lowered
file name ending in `pytorch_model.bin`, or containing `pytorch_model` and
ending in `.bin`. -/
def pytorchIsHandlerFor (p : String) (_scope : Scope) : Bool :=
  let ext := extLower p
  let name := fileNameLower p
  ext == "pt" || ext == "pth" || strEndsWith name "pytorch_model.bin" ||
    (strContains name "pytorch_model" && strEndsWith name ".bin")

/-- Model of `handler_for` in `src/core/handlers/mod.rs`.  The returned handler is
identified by its `FileType`; `Err` carries the error message. -/
def handler_for (format : Option FileType) (p : String) (scope : Scope) :
    Except String FileType :=
  match format with
  | none =>
    if safetensorsIsHandlerFor p scope then .ok .safeTensors
    else if onnxIsHandlerFor p scope then .ok .onnx
    else if ggufIsHandlerFor p scope then .ok .gguf
    else if pytorchIsHandlerFor p scope then .ok .pyTorch
    else .error "unsupported file format"
  | some forced =>
    if forced.is_safetensors then .ok .safeTensors
    else if forced.is_onnx then .ok .onnx
    else if forced.is_gguf then .ok .gguf
    else if forced.is_pytorch then .ok .pyTorch
    else .error "unsupported file format"

/-! ## `paths_to_sign` of each handler

File contents are not parsed in the embedding; instead the already-parsed
artifacts the handlers extract are supplied as partial maps:
`readIndex p` is the `weight_map` of the SafeTensors index JSON at `p`
(as a tensor-name/shard-name pair list, `none` when the file is missing or
malformed), and `readOnnxExternal p` is the list of first-entry
`external_data` locations of the EXTERNAL initializers of the ONNX
protobuf at `p` (`none` when it fails to parse). -/

/-- Model of `SafeTensorsHandler::paths_to_sign`: a plain `.safetensors` file is
self-contained; an index file contributes itself plus the distinct shard
names of its `weight_map`, resolved against the index's parent directory.
The `HashSet` of shards is modelled by `List.dedup` (iteration order of the
Rust set is arbitrary; the claims are about the resulting path set). -/
def safetensorsPathsToSign (readIndex : String → Option (List (String × String)))
    (p : String) : Except String (List String) :=
  if is_safetensors_index p then
    match parentDir p with
    | none => .error "no parent path"
    | some base =>
      match readIndex p with
      | none => .error ("failed to read index " ++ p)
      | some wm => .ok (p :: ((wm.map Prod.snd).map (resolveRef base)).dedup)
  else
    .ok [p]

/-- Model of `OnnxHandler::paths_to_sign`: the file itself plus the distinct
external-data locations, resolved against the file's parent directory. -/
def onnxPathsToSign (readOnnxExternal : String → Option (List String))
    (p : String) : Except String (List String) :=
  match parentDir p with
  | none => .error "no parent path"
  | some base =>
    match readOnnxExternal p with
    | none => .error ("failed to parse " ++ p)
    | some ext => .ok (p :: (ext.map (resolveRef base)).dedup)

/-- Dispatch of `paths_to_sign` over the handler returned by
`handler_for`; GGUF and PyTorch files are self-contained. -/
def paths_to_sign (readIndex : String → Option (List (String × String)))
    (readOnnxExternal : String → Option (List String))
    (h : FileType) (p : String) : Except String (List String) :=
  match h with
  | .safeTensors => safetensorsPathsToSign readIndex p
  | .onnx => onnxPathsToSign readOnnxExternal p
  | .gguf => .ok [p]
  | .pyTorch => .ok [p]
  | .unknown => .error "unsupported file format"

/-! ## Path-of-interest resolver (src/cli/signing.rs)

Canonicalization is modelled as the identity: the model's paths are
already canonical (no symlinks, no `.`/`..` segments), which is the only
case the claims exercise. -/

/-- Model of `get_paths_for` in `src/cli/signing.rs`: dispatch a handler in signing
scope and take its `paths_to_sign`; when no handler matches, fall back to
the file itself. -/
def get_paths_for (readIndex : String → Option (List (String × String)))
    (readOnnxExternal : String → Option (List String))
    (format : Option FileType) (p : String) : Except String (List String) :=
  match handler_for format p .signing with
  | .ok h => paths_to_sign readIndex readOnnxExternal h p
  | .error _ => .ok [p]

/-- The directory branch of `get_paths_of_interest`: glob every regular
file under the root (the model receives that enumeration as `files`),
union the per-file `get_paths_for` results into a set (`HashSet` modelled
by `List.dedup`), and fail with "no compatible paths found" when the
result is empty. -/
def collectPaths (readIndex : String → Option (List (String × String)))
    (readOnnxExternal : String → Option (List String))
    (format : Option FileType) :
    List String → List String → Except String (List String)
  | acc, [] => .ok acc
  | acc, f :: rest =>
    match get_paths_for readIndex readOnnxExternal format f with
    | .error e => .error e
    | .ok ps => collectPaths readIndex readOnnxExternal format (acc ++ ps) rest

/-- The directory branch of `get_paths_of_interest` (continued): run
`collectPaths` from an empty accumulator and de-duplicate. -/
def get_paths_of_interest_dir (readIndex : String → Option (List (String × String)))
    (readOnnxExternal : String → Option (List String))
    (format : Option FileType) (files : List String) :
    Except String (List String) :=
  match collectPaths readIndex readOnnxExternal format [] files with
  | .error e => .error e
  | .ok all =>
    let unique := all.dedup
    if unique.isEmpty then .error "no compatible paths found" else .ok unique

/-! ## Manifest engine (src/core/signing.rs)

File contents and digests are strings.  `hash` is the abstract
BLAKE2b-512-then-hex-encode function (used both for file checksums and for
the public-key fingerprint, as in the source), `edSign sk msg` and
`edVerify pk msg sig` are the abstract Ed25519 operations with hex-encoded
signatures, and `fs` is the filesystem as a partial map from (canonical,
manifest-relative) paths to contents. -/

/-- Insertion sort step for byte-lexicographic string sorting. -/
def insertStr (x : String) : List String → List String
  | [] => [x]
  | y :: ys => if strLe x y then x :: y :: ys else y :: insertStr x ys

/-- Ascending byte-lexicographic sort, model of `Vec::sort` on `String`
and `PathBuf` values. -/
def sortStrs (l : List String) : List String :=
  l.foldr insertStr []

/-- Model of `Vec<String>::join(".")`. -/
def joinDots : List String → String
  | [] => ""
  | [x] => x
  | x :: xs => x ++ "." ++ joinDots xs

/-- Sorted-map insertion keyed on the first component, model of
`BTreeMap::insert` (ordered by key, replacing an existing entry). -/
def insertChecksum (k v : String) : List (String × String) → List (String × String)
  | [] => [(k, v)]
  | (k', v') :: rest =>
    if k = k' then (k, v) :: rest
    else if strLe k k' then (k, v) :: (k', v') :: rest
    else (k', v') :: insertChecksum k v rest

/-- The manifest, `Manifest` in `src/core/signing.rs`, restricted to the
fields the claims depend on.  `version`, `signed_at`, `signed_with` and
`algorithms` are constants or timestamps that no claim mentions and are
omitted; `public_key` is the optional hex fingerprint, `checksums` the
ordered relative-path-to-digest map, `signature` the hex signature. -/
structure Manifest where
  publicKey : Option String
  checksums : List (String × String)
  signature : String
  deriving DecidableEq

/-- Model of `Manifest::from_signing_key`: the fingerprint is the hash of the raw
public key derived from the signing key (the key pair's public half `pk`
is passed explicitly); checksums start empty. -/
def Manifest.from_signing_key (hash : String → String) (pk : String) : Manifest :=
  { publicKey := some (hash pk), checksums := [], signature := "" }

/-- Model of `Manifest::from_public_key`: same fingerprint computation from the raw
public key bytes. -/
def Manifest.from_public_key (hash : String → String) (pkBytes : String) : Manifest :=
  { publicKey := some (hash pkBytes), checksums := [], signature := "" }

/-- Model of `Manifest::compute_checksum`: hash the file's contents and insert the
digest under the file's manifest-relative path (canonicalization and
`base_path` stripping are the identity in the model, whose paths are
already canonical and relative). -/
def Manifest.compute_checksum (fs : String → Option String) (hash : String → String)
    (m : Manifest) (p : String) : Except String Manifest :=
  match fs p with
  | none => .error ("failed to open " ++ p)
  | some content =>
    .ok { m with checksums := insertChecksum p (hash content) m.checksums }

/-- The checksum-computation loop shared by `sign` and `verify`. -/
def Manifest.hashPaths (fs : String → Option String) (hash : String → String) :
    Manifest → List String → Except String Manifest
  | m, [] => .ok m
  | m, p :: ps =>
    match m.compute_checksum fs hash p with
    | .error e => .error e
    | .ok m' => m'.hashPaths fs hash ps

/-- Model of `Manifest::data_to_sign`: the checksum values sorted ascending and
joined with dots. -/
def Manifest.data_to_sign (m : Manifest) : String :=
  joinDots (sortStrs (m.checksums.map Prod.snd))

/-- Model of `Manifest::create_signature`: sign the payload with the private key. -/
def Manifest.create_signature (edSign : String → String → String) (sk : String)
    (m : Manifest) : Manifest :=
  { m with signature := edSign sk m.data_to_sign }

/-- First loop of `Manifest::verify_checksums`: every required digest
(self side) must appear among the provided digests. -/
def checkRequired (provided : List String) : List (String × String) → Except String Unit
  | [] => .ok ()
  | (path, req) :: rest =>
    if provided.contains req then checkRequired provided rest
    else .error ("missing or invalid checksum for " ++ path)

/-- Second loop of `Manifest::verify_checksums`: every provided digest
must appear among the required digests. -/
def checkProvided (required : List String) : List (String × String) → Except String Unit
  | [] => .ok ()
  | (path, exp) :: rest =>
    if required.contains exp then checkProvided required rest
    else .error ("invalid checksum for " ++ path)

/-- Model of `Manifest::verify_checksums` over the reference checksums. -/
def Manifest.verify_checksums (m : Manifest) (checksums : List (String × String)) :
    Except String Unit :=
  match checkRequired (checksums.map Prod.snd) m.checksums with
  | .error e => .error e
  | .ok _ => checkProvided (m.checksums.map Prod.snd) checksums

/-- Model of `Manifest::verify_signature`: Ed25519-verify the payload recomputed
from `self`'s checksums against the stored signature, with the verifying
key loaded into the manifest.  The underlying `ring` error text appended
by the source is outside the model. -/
def Manifest.verify_signature (edVerify : String → String → String → Bool)
    (pkBytes : String) (m : Manifest) (signature : String) : Except String Unit :=
  if edVerify pkBytes m.data_to_sign signature then .ok ()
  else .error "signature verification failed"

/-- Model of `Manifest::sign`: sort the paths, hash them all, then sign the
payload; returns the sealed manifest (the source returns the hex signature
and mutates `self` — the model returns the mutated manifest, whose
`signature` field is that hex signature). -/
def Manifest.sign (fs : String → Option String) (hash : String → String)
    (edSign : String → String → String) (sk : String)
    (m : Manifest) (paths : List String) : Except String Manifest :=
  match m.hashPaths fs hash (sortStrs paths) with
  | .error e => .error e
  | .ok m' => .ok (m'.create_signature edSign sk)

/-- Model of `Manifest::verify`: sort and hash the paths, then compare the public
key fingerprints, the checksum sets, and the signature, in that order.
`signature` (the parameter named after the source's) is the reference
manifest loaded from the signature file. -/
def Manifest.verify (fs : String → Option String) (hash : String → String)
    (edVerify : String → String → String → Bool) (pkBytes : String)
    (m : Manifest) (paths : List String) (signature : Manifest) :
    Except String Unit :=
  match m.hashPaths fs hash (sortStrs paths) with
  | .error e => .error e
  | .ok m' =>
    if signature.publicKey ≠ m'.publicKey then
      .error "public key fingerprint mismatch"
    else
      match m'.verify_checksums signature.checksums with
      | .error e => .error e
      | .ok _ => m'.verify_signature edVerify pkBytes signature.signature

/-! ## Tensor descriptors (src/core/mod.rs and the ONNX/GGUF handlers) -/

/-- Model of `TensorDescriptor` in `src/core/mod.rs`. -/
structure TensorDescriptor where
  id : Option String
  shape : List Nat
  dtype : String
  size : Nat
  metadata : List (String × String)
  deriving DecidableEq

/-- The fields of an ONNX `TensorProto` initializer the descriptor builder
reads: name, dims, the dtype code, doc string, data location
(`1 = EXTERNAL`), the `external_data` values, and `metadata_props`. -/
structure TensorProto where
  name : String
  dims : List Nat
  data_type : Int
  doc_string : String
  data_location : Int
  external_data : List String
  metadata_props : List (String × String)

/-- Model of `data_type_bits` of the ONNX handler: bit widths of ONNX dtype codes
1–23; the source panics on any other code, modelled as `none`. -/
def onnx_data_type_bits (dtype : Int) : Option Nat :=
  if dtype = 1 then some 32
  else if dtype = 2 then some 8
  else if dtype = 3 then some 8
  else if dtype = 4 then some 16
  else if dtype = 5 then some 16
  else if dtype = 6 then some 32
  else if dtype = 7 then some 64
  else if dtype = 8 then some 8
  else if dtype = 9 then some 8
  else if dtype = 10 then some 16
  else if dtype = 11 then some 64
  else if dtype = 12 then some 32
  else if dtype = 13 then some 64
  else if dtype = 14 then some 64
  else if dtype = 15 then some 128
  else if dtype = 16 then some 16
  else if dtype = 17 then some 8
  else if dtype = 18 then some 8
  else if dtype = 19 then some 8
  else if dtype = 20 then some 8
  else if dtype = 21 then some 4
  else if dtype = 22 then some 4
  else if dtype = 23 then some 4
  else none

/-- Model of `data_type_string` of the ONNX handler (total, `UNKNOWN` fallback). -/
def onnx_data_type_string (dtype : Int) : String :=
  if dtype = 1 then "FLOAT"
  else if dtype = 2 then "UINT8"
  else if dtype = 3 then "INT8"
  else if dtype = 4 then "UINT16"
  else if dtype = 5 then "INT16"
  else if dtype = 6 then "INT32"
  else if dtype = 7 then "INT64"
  else if dtype = 8 then "STRING"
  else if dtype = 9 then "BOOL"
  else if dtype = 10 then "FLOAT16"
  else if dtype = 11 then "DOUBLE"
  else if dtype = 12 then "UINT32"
  else if dtype = 13 then "UINT64"
  else if dtype = 14 then "COMPLEX64"
  else if dtype = 15 then "COMPLEX128"
  else if dtype = 16 then "BFLOAT16"
  else if dtype = 17 then "FLOAT8E4M3FN"
  else if dtype = 18 then "FLOAT8E4M3FNUZ"
  else if dtype = 19 then "FLOAT8E5M2"
  else if dtype = 20 then "FLOAT8E5M2FNUZ"
  else if dtype = 21 then "UINT4"
  else if dtype = 22 then "INT4"
  else if dtype = 23 then "FLOAT4E2M1"
  else "UNKNOWN"

/-- Metadata block of the ONNX `build_tensor_descriptor`: the doc string,
the external-data markers, and the tensor's `metadata_props` (the
`BTreeMap` insertions are modelled as an association list in insertion
order; no claim depends on the map ordering). -/
def onnxDescriptorMetadata (t : TensorProto) : List (String × String) :=
  (if t.doc_string ≠ "" then [("doc_string", t.doc_string)] else []) ++
    (if t.data_location = 1 then
      ("data_location", "external") ::
        (match t.external_data.head? with
         | some loc => [("location", loc)]
         | none => [])
     else []) ++
    t.metadata_props

/-- Model of `build_tensor_descriptor` of the ONNX handler; `none` models the
panic of `data_type_bits` on an unknown dtype code (reached only when the
shape is non-empty, as in the source's branch order). -/
def onnxBuildTensorDescriptor (t : TensorProto) : Option TensorDescriptor :=
  if t.dims.isEmpty then
    some { id := some t.name, shape := t.dims,
           dtype := onnx_data_type_string t.data_type, size := 0,
           metadata := onnxDescriptorMetadata t }
  else
    match onnx_data_type_bits t.data_type with
    | none => none
    | some bits =>
      some { id := some t.name, shape := t.dims,
             dtype := onnx_data_type_string t.data_type,
             size := bits * t.dims.prod / 8,
             metadata := onnxDescriptorMetadata t }

/-- Model of `GGMLType` of the `gguf` crate, as matched by the GGUF handler. -/
inductive GGMLType where
  | f32 | f16 | q4_0 | q4_1 | q5_0 | q5_1 | q8_0 | q8_1
  | q2k | q3k | q4k | q5k | q6k | q8k | i8 | i16 | i32 | count
  deriving DecidableEq

/-- Model of `data_type_bits` of the GGUF handler (total over `GGMLType`). -/
def gguf_data_type_bits : GGMLType → Nat
  | .f32 => 32
  | .f16 => 16
  | .q4_0 => 4
  | .q4_1 => 4
  | .q5_0 => 5
  | .q5_1 => 5
  | .q8_0 => 8
  | .q8_1 => 8
  | .q2k => 2
  | .q3k => 3
  | .q4k => 4
  | .q5k => 5
  | .q6k => 6
  | .q8k => 8
  | .i8 => 8
  | .i16 => 16
  | .i32 => 32
  | .count => 32

/-- Debug-format name of a `GGMLType`, the handler's `dtype` string. -/
def gguf_type_name : GGMLType → String
  | .f32 => "F32"
  | .f16 => "F16"
  | .q4_0 => "Q4_0"
  | .q4_1 => "Q4_1"
  | .q5_0 => "Q5_0"
  | .q5_1 => "Q5_1"
  | .q8_0 => "Q8_0"
  | .q8_1 => "Q8_1"
  | .q2k => "Q2K"
  | .q3k => "Q3K"
  | .q4k => "Q4K"
  | .q5k => "Q5K"
  | .q6k => "Q6K"
  | .q8k => "Q8K"
  | .i8 => "I8"
  | .i16 => "I16"
  | .i32 => "I32"
  | .count => "Count"

/-- Model of `GGUFTensorInfo` fields read by the GGUF descriptor builder. -/
structure GGUFTensorInfo where
  name : String
  dimensions : List Nat
  tensor_type : GGMLType

/-- Model of `build_tensor_descriptor` of the GGUF handler. -/
def ggufBuildTensorDescriptor (t : GGUFTensorInfo) : TensorDescriptor :=
  { id := some t.name
    shape := t.dimensions
    dtype := gguf_type_name t.tensor_type
    size :=
      if t.dimensions.isEmpty then 0
      else gguf_data_type_bits t.tensor_type * t.dimensions.prod / 8
    metadata := [] }

/-- The byte size the specification prescribes:
`ceil(bits * prod(shape) / 8)`.  This definition follows the spec's words,
for comparison with the source-derived builders above. -/
def specCeilByteSize (bits prodDims : Nat) : Nat :=
  (bits * prodDims + 7) / 8

/-! ## Order facts about the byte-lexicographic comparison -/

/-- The relation `lexLe` is total. -/
theorem lexLe_total (a b : List Char) : lexLe a b = true ∨ lexLe b a = true := by
  induction a generalizing b with
  | nil => left; rfl
  | cons c cs ih =>
    cases b with
    | nil => right; rfl
    | cons d ds =>
      rcases Nat.lt_trichotomy c.toNat d.toNat with h | h | h
      · left; simp [lexLe, h]
      · have h1 : ¬ c.toNat < d.toNat := by omega
        have h2 : ¬ d.toNat < c.toNat := by omega
        rcases ih ds with h' | h'
        · left; simp [lexLe, h1, h2, h']
        · right; simp [lexLe, h1, h2, h']
      · right; simp [lexLe, h]

/-- The relation `lexLe` is transitive. -/
theorem lexLe_trans : ∀ {a b c : List Char},
    lexLe a b = true → lexLe b c = true → lexLe a c = true := by
  intro a
  induction a with
  | nil => intro b c _ _; rfl
  | cons x xs ih =>
    intro b c hab hbc
    cases b with
    | nil => simp [lexLe] at hab
    | cons y ys =>
      cases c with
      | nil => simp [lexLe] at hbc
      | cons z zs =>
        by_cases hxy : x.toNat < y.toNat
        · have hyz : y.toNat ≤ z.toNat := by
            by_contra hc
            simp [lexLe, show ¬ y.toNat < z.toNat by omega,
                  show z.toNat < y.toNat by omega] at hbc
          simp [lexLe, show x.toNat < z.toNat by omega]
        · by_cases hyx : y.toNat < x.toNat
          · simp [lexLe, hxy, hyx] at hab
          · have hxyeq : x.toNat = y.toNat := by omega
            by_cases hyz : y.toNat < z.toNat
            · simp [lexLe, show x.toNat < z.toNat by omega]
            · by_cases hzy : z.toNat < y.toNat
              · simp [lexLe, hyz, hzy] at hbc
              · have h1 : ¬ x.toNat < z.toNat := by omega
                have h2 : ¬ z.toNat < x.toNat := by omega
                simp [lexLe, hxy, hyx] at hab
                simp [lexLe, hyz, hzy] at hbc
                simp [lexLe, h1, h2]
                exact ih hab hbc

/-- The relation `lexLe` is antisymmetric. -/
theorem lexLe_antisymm {a b : List Char} (hab : lexLe a b = true)
    (hba : lexLe b a = true) : a = b := by
  induction a generalizing b with
  | nil =>
    cases b with
    | nil => rfl
    | cons d ds => simp [lexLe] at hba
  | cons c cs ih =>
    cases b with
    | nil => simp [lexLe] at hab
    | cons d ds =>
      rcases Nat.lt_trichotomy c.toNat d.toNat with h | h | h
      · simp [lexLe, h, Nat.lt_asymm h] at hba
      · have hc : c = d := Char.eq_of_val_eq (UInt32.ext h)
        subst hc
        simp [lexLe, Nat.lt_irrefl] at hab hba
        rw [ih hab hba]
      · simp [lexLe, h, Nat.lt_asymm h] at hab

/-- The relation `strLe` is total. -/
theorem strLe_total (a b : String) : strLe a b = true ∨ strLe b a = true :=
  lexLe_total a.data b.data

/-- The relation `strLe` is antisymmetric. -/
theorem strLe_antisymm {a b : String} (hab : strLe a b = true)
    (hba : strLe b a = true) : a = b := by
  cases a; cases b
  exact congrArg String.mk (lexLe_antisymm hab hba)

/-- The relation `strLe` is transitive. -/
theorem strLe_trans {a b c : String} (hab : strLe a b = true)
    (hbc : strLe b c = true) : strLe a c = true :=
  lexLe_trans hab hbc

/-- When `a ≤ b` holds between distinct strings, `b ≤ a` fails. -/
theorem strLe_asymm_of_ne {a b : String} (hne : a ≠ b)
    (hab : strLe a b = true) : strLe b a = false := by
  cases h : strLe b a with
  | false => rfl
  | true => exact absurd (strLe_antisymm hab h) hne

/-- Two sorted insertions commute: the building block of the
order-invariance of sorting. -/
theorem insertStr_comm (x y : String) (l : List String) :
    insertStr x (insertStr y l) = insertStr y (insertStr x l) := by
  by_cases hxy : x = y
  · subst hxy; rfl
  · induction l with
    | nil =>
      rcases strLe_total x y with h | h
      · simp [insertStr, h, strLe_asymm_of_ne hxy h]
      · simp [insertStr, h, strLe_asymm_of_ne (Ne.symm hxy) h]
    | cons z zs ih =>
      rcases strLe_total x y with h | h
      · have h' := strLe_asymm_of_ne hxy h
        by_cases hyz : strLe y z = true
        · simp [insertStr, hyz, strLe_trans h hyz, h, h']
        · have hyz' : strLe y z = false := by simpa using hyz
          by_cases hxz : strLe x z = true
          · simp [insertStr, hyz', hxz, h, h']
          · have hxz' : strLe x z = false := by simpa using hxz
            simp [insertStr, hyz', hxz', ih]
      · have h' := strLe_asymm_of_ne (Ne.symm hxy) h
        by_cases hxz : strLe x z = true
        · simp [insertStr, hxz, strLe_trans h hxz, h, h']
        · have hxz' : strLe x z = false := by simpa using hxz
          by_cases hyz : strLe y z = true
          · simp [insertStr, hxz', hyz, h, h']
          · have hyz' : strLe y z = false := by simpa using hyz
            simp [insertStr, hxz', hyz', ih]

/-- Sorting is invariant under permutation of the input. -/
theorem sortStrs_perm {l1 l2 : List String} (h : l1.Perm l2) :
    sortStrs l1 = sortStrs l2 := by
  induction h with
  | nil => rfl
  | cons x _ ih => simp [sortStrs, List.foldr] at ih ⊢; rw [ih]
  | swap x y l => simp [sortStrs, List.foldr, insertStr_comm]
  | trans _ _ ih1 ih2 => rw [ih1, ih2]

/-! ## Support lemmas about the engine's loops -/

/-- The first checksum loop succeeds exactly when every required digest
value appears among the provided ones. -/
theorem checkRequired_ok_iff (provided : List String) (l : List (String × String)) :
    checkRequired provided l = .ok () ↔
      ∀ kv ∈ l, kv.2 ∈ provided := by
  induction l with
  | nil => simp [checkRequired]
  | cons kv rest ih =>
    obtain ⟨path, req⟩ := kv
    by_cases h : req ∈ provided
    · simp [checkRequired, h, ih]
    · simp [checkRequired, h]

/-- The second checksum loop succeeds exactly when every provided digest
value appears among the required ones. -/
theorem checkProvided_ok_iff (required : List String) (l : List (String × String)) :
    checkProvided required l = .ok () ↔
      ∀ kv ∈ l, kv.2 ∈ required := by
  induction l with
  | nil => simp [checkProvided]
  | cons kv rest ih =>
    obtain ⟨path, exp⟩ := kv
    by_cases h : exp ∈ required
    · simp [checkProvided, h, ih]
    · simp [checkProvided, h]

/-- Hashing paths never touches the key fingerprint. -/
theorem hashPaths_publicKey (fs : String → Option String) (hash : String → String) :
    ∀ (paths : List String) (m m' : Manifest),
      m.hashPaths fs hash paths = .ok m' → m'.publicKey = m.publicKey := by
  intro paths
  induction paths with
  | nil =>
    intro m m' h
    simp [Manifest.hashPaths] at h
    rw [← h]
  | cons p ps ih =>
    intro m m' h
    simp only [Manifest.hashPaths, Manifest.compute_checksum] at h
    cases hf : fs p with
    | none => rw [hf] at h; simp at h
    | some content =>
      rw [hf] at h
      simp only at h
      have h2 := ih _ m' h
      simpa using h2

/-- Every path a successful per-file resolution returns ends up in the
directory resolver's output. -/
theorem get_paths_of_interest_dir_mem
    (readIndex : String → Option (List (String × String)))
    (readOnnxExternal : String → Option (List String))
    (format : Option FileType) :
    ∀ (files : List String) (r : List String),
      get_paths_of_interest_dir readIndex readOnnxExternal format files = .ok r →
      ∀ f ∈ files, ∀ ps,
        get_paths_for readIndex readOnnxExternal format f = .ok ps →
        ∀ x ∈ ps, x ∈ r := by
  have fold_mem :
      ∀ (files : List String) (acc all : List String),
        collectPaths readIndex readOnnxExternal format acc files = .ok all →
        (∀ x ∈ acc, x ∈ all) ∧
          (∀ f ∈ files, ∀ ps,
            get_paths_for readIndex readOnnxExternal format f = .ok ps →
            ∀ x ∈ ps, x ∈ all) := by
    intro files
    induction files with
    | nil =>
      intro acc all h
      simp only [collectPaths] at h
      cases h
      exact ⟨fun x hx => hx, by simp⟩
    | cons f rest ih =>
      intro acc all h
      simp only [collectPaths] at h
      cases hg : get_paths_for readIndex readOnnxExternal format f with
      | error e => rw [hg] at h; cases h
      | ok ps =>
        rw [hg] at h
        obtain ⟨hacc, hrest⟩ := ih (acc ++ ps) all h
        refine ⟨fun x hx => hacc x (by simp [hx]), ?_⟩
        intro f' hf' ps' hps' x hx
        rcases List.mem_cons.mp hf' with hf' | hf'
        · subst hf'
          rw [hg] at hps'
          have hpp : ps = ps' := by
            cases hps'
            rfl
          subst hpp
          exact hacc x (by simp [hx])
        · exact hrest f' hf' ps' hps' x hx
  intro files r h f hf ps hps x hx
  unfold get_paths_of_interest_dir at h
  cases hfold : collectPaths readIndex readOnnxExternal format [] files with
  | error e => rw [hfold] at h; cases h
  | ok all =>
    rw [hfold] at h
    simp only at h
    by_cases hemp : all.dedup.isEmpty
    · simp [hemp] at h
    · simp [hemp] at h
      subst h
      have hmem := (fold_mem files [] all hfold).2 f hf ps hps x hx
      simpa [List.mem_dedup] using hmem

/-! ## Concrete instantiations of the abstract parameters

Used by the witness and counterexample theorems: a tagging hash and a
tagging signature scheme (`verify` recomputes the signature and compares),
which satisfies the valid-key-pair property for any key used as both
halves. -/

/-- Concrete hash standing in for hex-encoded BLAKE2b-512. -/
def tagHash (s : String) : String := "H|" ++ s

/-- Concrete signing function standing in for hex-encoded Ed25519. -/
def tagSign (sk msg : String) : String := "sig|" ++ sk ++ "|" ++ msg

/-- Concrete verification matching `tagSign` when the same key is used for
both operations. -/
def tagVerify (pk msg sig : String) : Bool := sig == tagSign pk msg

/-- Filesystem with two files holding identical bytes. -/
def fsTwin : String → Option String :=
  fun p => if p = "a.txt" ∨ p = "b.txt" then some "x" else none

/-- Filesystem of the re-signing scenario: a model file plus a signature
file left over from a previous signing run. -/
def fsResign : String → Option String :=
  fun p =>
    if p = "d/model.safetensors" then some "MS"
    else if p = "d/tensor-man.signature" then some "OLD"
    else none

/-- One-file filesystem for the round-trip witness. -/
def fsSingle : String → Option String :=
  fun p => if p = "f" then some "data" else none

/-- Index reader that knows no index files. -/
def noIndex : String → Option (List (String × String)) := fun _ => none

/-- ONNX reader that knows no ONNX files. -/
def noOnnx : String → Option (List String) := fun _ => none

/-! ## Claim theorems -/

/-- C9: dispatching with the explicit format override `FileType::Unknown`
fails with "unsupported file format" for every path and scope — the
override branch never falls back to extension auto-detection, which (second
conjunct) would have claimed a `.safetensors` path in either scope. -/
theorem C9_forced_unknown_never_auto_detects (p : String) (scope : Scope) :
    handler_for (some .unknown) p scope = .error "unsupported file format" ∧
    handler_for none "model.safetensors" scope = .ok .safeTensors := by
  refine ⟨rfl, ?_⟩
  cases scope <;> rfl

/-- C10: a reference manifest deserialized without a `public_key`
fingerprint is rejected with "public key fingerprint mismatch" whatever its
checksums and signature say, because the verifying manifest built from a
public key always carries `Some` fingerprint (second conjunct), and the
fingerprint comparison precedes the checksum and signature comparisons. -/
theorem C10_fingerprintless_manifest_rejected
    (fs : String → Option String) (hash : String → String)
    (edVerify : String → String → String → Bool) (pkBytes : String)
    (paths : List String) (ref m' : Manifest)
    (hhash : (Manifest.from_public_key hash pkBytes).hashPaths fs hash (sortStrs paths)
      = .ok m')
    (href : ref.publicKey = none) :
    (Manifest.from_public_key hash pkBytes).verify fs hash edVerify pkBytes paths ref
      = .error "public key fingerprint mismatch" ∧
    (Manifest.from_public_key hash pkBytes).publicKey ≠ none := by
  constructor
  · unfold Manifest.verify
    rw [hhash]
    have hpk : m'.publicKey = some (hash pkBytes) :=
      hashPaths_publicKey fs hash (sortStrs paths) _ m' hhash
    simp [href, hpk]
  · simp [Manifest.from_public_key]

/-- Witness for C10 at a concrete verify run. -/
theorem C10_witness :
    (Manifest.from_public_key tagHash "K").hashPaths fsSingle tagHash (sortStrs ["f"])
        = .ok ⟨some (tagHash "K"), [("f", tagHash "data")], ""⟩ ∧
    (Manifest.from_public_key tagHash "K").verify fsSingle tagHash tagVerify "K" ["f"]
        ⟨none, [("f", tagHash "data")], tagSign "K" (tagHash "data")⟩
      = .error "public key fingerprint mismatch" :=
  ⟨by decide,
   (C10_fingerprintless_manifest_rejected fsSingle tagHash tagVerify "K" ["f"]
      ⟨none, [("f", tagHash "data")], tagSign "K" (tagHash "data")⟩
      ⟨some (tagHash "K"), [("f", tagHash "data")], ""⟩ (by decide) rfl).1⟩

/-- C7: permuting the input paths of `sign` yields an identical result
(in particular a bitwise-identical signature): `sign` sorts the paths
before hashing, and insertion into the ordered checksum map together with
the sorted payload makes the outcome order-independent. -/
theorem C7_sign_order_invariant (fs : String → Option String) (hash : String → String)
    (edSign : String → String → String) (sk : String) (m : Manifest)
    (paths1 paths2 : List String) (h : paths1.Perm paths2) :
    m.sign fs hash edSign sk paths1 = m.sign fs hash edSign sk paths2 := by
  unfold Manifest.sign
  rw [sortStrs_perm h]

/-- Witness for C7 at a concrete permutation. -/
theorem C7_witness :
    (["b.txt", "a.txt"] : List String).Perm ["a.txt", "b.txt"] ∧
    (Manifest.from_signing_key tagHash "K").sign fsTwin tagHash tagSign "K"
        ["b.txt", "a.txt"]
      = (Manifest.from_signing_key tagHash "K").sign fsTwin tagHash tagSign "K"
        ["a.txt", "b.txt"] :=
  ⟨List.Perm.swap "a.txt" "b.txt" [],
   C7_sign_order_invariant fsTwin tagHash tagSign "K" _ _ _
     (List.Perm.swap "a.txt" "b.txt" [])⟩

/-- C4: round trip — signing a file with a key pair and verifying the same
file against the produced manifest with the raw public key succeeds. -/
theorem C4_round_trip (fs : String → Option String) (hash : String → String)
    (edSign : String → String → String) (edVerify : String → String → String → Bool)
    (sk pk f c : String)
    (hkp : ∀ msg, edVerify pk msg (edSign sk msg) = true)
    (hf : fs f = some c) (M : Manifest)
    (hs : (Manifest.from_signing_key hash pk).sign fs hash edSign sk [f] = .ok M) :
    (Manifest.from_public_key hash pk).verify fs hash edVerify pk [f] M = .ok () := by
  have hsval : (Manifest.from_signing_key hash pk).sign fs hash edSign sk [f]
      = .ok ⟨some (hash pk), [(f, hash c)], edSign sk (hash c)⟩ := by
    simp [Manifest.sign, sortStrs, insertStr, Manifest.hashPaths,
          Manifest.compute_checksum, hf, insertChecksum, Manifest.create_signature,
          Manifest.data_to_sign, joinDots, Manifest.from_signing_key]
  rw [hsval] at hs
  have hM : M = ⟨some (hash pk), [(f, hash c)], edSign sk (hash c)⟩ := by
    cases hs
    rfl
  subst hM
  simp [Manifest.verify, sortStrs, insertStr, Manifest.hashPaths,
        Manifest.compute_checksum, hf, insertChecksum, Manifest.from_public_key,
        Manifest.verify_checksums, checkRequired, checkProvided,
        Manifest.verify_signature, Manifest.data_to_sign, joinDots, hkp]

/-- Witness for C4 at a concrete file and key pair. -/
theorem C4_witness :
    (∀ msg, tagVerify "K" msg (tagSign "K" msg) = true) ∧
    fsSingle "f" = some "data" ∧
    (Manifest.from_signing_key tagHash "K").sign fsSingle tagHash tagSign "K" ["f"]
      = .ok ⟨some (tagHash "K"), [("f", tagHash "data")], tagSign "K" (tagHash "data")⟩ ∧
    (Manifest.from_public_key tagHash "K").verify fsSingle tagHash tagVerify "K" ["f"]
        ⟨some (tagHash "K"), [("f", tagHash "data")], tagSign "K" (tagHash "data")⟩
      = .ok () :=
  ⟨fun msg => by simp [tagVerify], by decide, by decide,
   C4_round_trip fsSingle tagHash tagSign tagVerify "K" "K" "f" "data"
     (fun msg => by simp [tagVerify]) (by decide) _ (by decide)⟩

/-- Reference manifest of the C2 counterexample: one checksum, correctly
signed over its own (one-value) payload. -/
def refTwin : Manifest :=
  { publicKey := some (tagHash "K")
    checksums := [("q", tagHash "x")]
    signature := tagSign "K" (tagHash "x") }

/-- C2 counterexample: a verify run in which Ed25519-verifying the payload
recomputed from the *reference* manifest's checksums succeeds (first
conjunct), yet the run fails with "signature verification failed" — the
code verifies the payload recomputed from the *verifying* manifest's own
checksums (here two files with identical bytes produce the two-value
payload `h.h` while the reference payload is `h`). -/
theorem C2_counterexample :
    tagVerify "K" refTwin.data_to_sign refTwin.signature = true ∧
    (Manifest.from_public_key tagHash "K").verify fsTwin tagHash tagVerify "K"
        ["b.txt", "a.txt"] refTwin
      = .error "signature verification failed" := by decide

/-- C2 as amended: after hashing succeeds, the fingerprints match and the
checksum comparison passes, the final check Ed25519-verifies the payload
recomputed from the *verifying* manifest's own checksums (sorted ascending,
joined with dots) against the reference manifest's stored signature, and
the run succeeds exactly when that verification holds, failing with
"signature verification failed" otherwise. -/
theorem C2_amended_signature_check (fs : String → Option String)
    (hash : String → String) (edVerify : String → String → String → Bool)
    (pkBytes : String) (m : Manifest) (paths : List String) (ref m' : Manifest)
    (hhash : m.hashPaths fs hash (sortStrs paths) = .ok m')
    (hfp : ref.publicKey = m'.publicKey)
    (hck : m'.verify_checksums ref.checksums = .ok ()) :
    (m.verify fs hash edVerify pkBytes paths ref = .ok ()
      ↔ edVerify pkBytes m'.data_to_sign ref.signature = true) ∧
    (edVerify pkBytes m'.data_to_sign ref.signature = false →
      m.verify fs hash edVerify pkBytes paths ref
        = .error "signature verification failed") := by
  unfold Manifest.verify
  rw [hhash]
  simp only [hfp, ne_eq, not_true_eq_false, if_false, hck]
  constructor
  · unfold Manifest.verify_signature
    cases hv : edVerify pkBytes m'.data_to_sign ref.signature <;> simp [hv]
  · intro hv
    unfold Manifest.verify_signature
    simp [hv]

/-- Witness for C2 (amended) at a concrete consistent run. -/
theorem C2_amended_witness :
    (Manifest.from_public_key tagHash "K").hashPaths fsSingle tagHash (sortStrs ["f"])
        = .ok ⟨some (tagHash "K"), [("f", tagHash "data")], ""⟩ ∧
    (⟨some (tagHash "K"), [("f", tagHash "data")],
        tagSign "K" (tagHash "data")⟩ : Manifest).publicKey
        = (⟨some (tagHash "K"), [("f", tagHash "data")], ""⟩ : Manifest).publicKey ∧
    (⟨some (tagHash "K"), [("f", tagHash "data")], ""⟩ : Manifest).verify_checksums
        [("f", tagHash "data")] = .ok () ∧
    ((Manifest.from_public_key tagHash "K").verify fsSingle tagHash tagVerify "K" ["f"]
          ⟨some (tagHash "K"), [("f", tagHash "data")], tagSign "K" (tagHash "data")⟩
        = .ok ()
      ↔ tagVerify "K"
          (⟨some (tagHash "K"), [("f", tagHash "data")], ""⟩ : Manifest).data_to_sign
          (tagSign "K" (tagHash "data")) = true) :=
  ⟨by decide, by decide, by decide,
   (C2_amended_signature_check fsSingle tagHash tagVerify "K"
      (Manifest.from_public_key tagHash "K") ["f"]
      ⟨some (tagHash "K"), [("f", tagHash "data")], tagSign "K" (tagHash "data")⟩
      ⟨some (tagHash "K"), [("f", tagHash "data")], ""⟩
      (by decide) (by decide) (by decide)).1⟩

/-- Verifying manifest of the C3 counterexample: two paths whose contents
hash to the same digest value. -/
def selfDup : Manifest :=
  { publicKey := none
    checksums := [("a.txt", "h"), ("b.txt", "h")]
    signature := "" }

/-- C3 counterexample: the checksum comparison succeeds although the
multiset of computed digest values (`h`, `h`) differs from the reference
multiset (`h`): the loops test only containment of values, ignoring
multiplicity. -/
theorem C3_counterexample :
    selfDup.verify_checksums [("c.txt", "h")] = .ok () ∧
    ¬ (selfDup.checksums.map Prod.snd).Perm ([("c.txt", "h")].map Prod.snd) := by
  constructor
  · decide
  · intro h
    have := h.length_eq
    simp [selfDup] at this

/-- Helper for C3: a failing first checksum loop reports one of the
required paths. -/
theorem checkRequired_error_mem (provided : List String) :
    ∀ (l : List (String × String)) (e : String),
      checkRequired provided l = .error e →
      ∃ kv ∈ l, e = "missing or invalid checksum for " ++ kv.1 := by
  intro l
  induction l with
  | nil => intro e h; simp [checkRequired] at h
  | cons kv rest ih =>
    intro e h
    obtain ⟨path, req⟩ := kv
    by_cases hc : provided.contains req
    · simp only [checkRequired, hc, if_true] at h
      obtain ⟨kv', hkv', he⟩ := ih e h
      exact ⟨kv', by simp [hkv'], he⟩
    · simp only [checkRequired, hc] at h
      rw [if_neg (by simp)] at h
      cases h
      exact ⟨(path, req), by simp⟩

/-- Helper for C3: a failing second checksum loop reports one of the
provided paths. -/
theorem checkProvided_error_mem (required : List String) :
    ∀ (l : List (String × String)) (e : String),
      checkProvided required l = .error e →
      ∃ kv ∈ l, e = "invalid checksum for " ++ kv.1 := by
  intro l
  induction l with
  | nil => intro e h; simp [checkProvided] at h
  | cons kv rest ih =>
    intro e h
    obtain ⟨path, exp⟩ := kv
    by_cases hc : required.contains exp
    · simp only [checkProvided, hc, if_true] at h
      obtain ⟨kv', hkv', he⟩ := ih e h
      exact ⟨kv', by simp [hkv'], he⟩
    · simp only [checkProvided, hc] at h
      rw [if_neg (by simp)] at h
      cases h
      exact ⟨(path, exp), by simp⟩

/-- C3 as amended: the checksum comparison succeeds exactly when the *set*
of digest values computed from the paths equals the set of digest values of
the reference manifest — every computed value appears among the reference
values and vice versa, multiplicities ignored (renames tolerated); on
failure the error message carries a representative path from the offending
side. -/
theorem C3_amended_checksum_set_equality (m : Manifest)
    (ref : List (String × String)) :
    (m.verify_checksums ref = .ok ()
      ↔ ((∀ v ∈ m.checksums.map Prod.snd, v ∈ ref.map Prod.snd) ∧
         (∀ v ∈ ref.map Prod.snd, v ∈ m.checksums.map Prod.snd))) ∧
    (∀ e, m.verify_checksums ref = .error e →
      (∃ kv ∈ m.checksums, e = "missing or invalid checksum for " ++ kv.1) ∨
      (∃ kv ∈ ref, e = "invalid checksum for " ++ kv.1)) := by
  constructor
  · unfold Manifest.verify_checksums
    cases hr : checkRequired (ref.map Prod.snd) m.checksums with
    | error e =>
      simp only []
      constructor
      · intro h; cases h
      · intro ⟨h1, _⟩
        have : checkRequired (ref.map Prod.snd) m.checksums = .ok () := by
          rw [checkRequired_ok_iff]
          intro kv hkv
          exact h1 kv.2 (List.mem_map.mpr ⟨kv, hkv, rfl⟩)
        rw [this] at hr
        cases hr
    | ok u =>
      cases u
      simp only []
      rw [checkProvided_ok_iff]
      have h1 := (checkRequired_ok_iff (ref.map Prod.snd) m.checksums).mp hr
      constructor
      · intro h2
        refine ⟨?_, ?_⟩
        · intro v hv
          obtain ⟨kv, hkv, rfl⟩ := List.mem_map.mp hv
          exact h1 kv hkv
        · intro v hv
          obtain ⟨kv, hkv, rfl⟩ := List.mem_map.mp hv
          exact h2 kv hkv
      · intro ⟨_, h2⟩ kv hkv
        exact h2 kv.2 (List.mem_map.mpr ⟨kv, hkv, rfl⟩)
  · intro e he
    unfold Manifest.verify_checksums at he
    cases hr : checkRequired (ref.map Prod.snd) m.checksums with
    | error e' =>
      rw [hr] at he
      cases he
      exact Or.inl (checkRequired_error_mem _ _ _ hr)
    | ok u =>
      cases u
      rw [hr] at he
      simp only [] at he
      exact Or.inr (checkProvided_error_mem _ _ _ he)

/-- C1 counterexample: resolving the S4 directory (`model.safetensors`,
`tokenizer.json`, `README.md`) in signing scope yields *three* paths, not
one — the two handler-unmatched files (second and third conjuncts) are not
silently skipped but fall back to themselves. -/
theorem C1_counterexample :
    get_paths_of_interest_dir noIndex noOnnx none
        ["d/model.safetensors", "d/tokenizer.json", "d/README.md"]
      = .ok ["d/model.safetensors", "d/tokenizer.json", "d/README.md"] ∧
    handler_for none "d/tokenizer.json" .signing = .error "unsupported file format" ∧
    handler_for none "d/README.md" .signing = .error "unsupported file format" ∧
    get_paths_of_interest_dir noIndex noOnnx none
        ["d/model.safetensors", "d/tokenizer.json", "d/README.md"]
      ≠ .ok ["d/model.safetensors"] := by
  decide

/-- C1 as amended: in directory mode a regular file for which no handler
matches is *not* skipped — the per-file resolution falls back to the file
itself, so every unmatched file is itself a member of the resolved set
(and the S4 directory resolves to three paths, giving a three-entry
manifest). -/
theorem C1_amended_unmatched_file_included
    (readIndex : String → Option (List (String × String)))
    (readOnnxExternal : String → Option (List String))
    (format : Option FileType) (files : List String) (r : List String)
    (hres : get_paths_of_interest_dir readIndex readOnnxExternal format files = .ok r)
    (f : String) (hf : f ∈ files)
    (hno : handler_for format f .signing = .error "unsupported file format") :
    f ∈ r := by
  refine get_paths_of_interest_dir_mem readIndex readOnnxExternal format files r hres
    f hf [f] ?_ f (by simp)
  unfold get_paths_for
  rw [hno]

/-- Witness for C1 (amended) at the S4 directory. -/
theorem C1_amended_witness :
    get_paths_of_interest_dir noIndex noOnnx none
        ["d/model.safetensors", "d/tokenizer.json", "d/README.md"]
      = .ok ["d/model.safetensors", "d/tokenizer.json", "d/README.md"] ∧
    ("d/tokenizer.json" : String) ∈
      ["d/model.safetensors", "d/tokenizer.json", "d/README.md"] ∧
    handler_for none "d/tokenizer.json" .signing = .error "unsupported file format" ∧
    ("d/tokenizer.json" : String) ∈
      ["d/model.safetensors", "d/tokenizer.json", "d/README.md"] :=
  ⟨by decide, by decide, by decide,
   C1_amended_unmatched_file_included noIndex noOnnx none
     ["d/model.safetensors", "d/tokenizer.json", "d/README.md"]
     ["d/model.safetensors", "d/tokenizer.json", "d/README.md"]
     (by decide) "d/tokenizer.json" (by decide) (by decide)⟩

/-- The manifest produced by re-signing the C5 directory, whose tree still
holds `tensor-man.signature` from a prior signing. -/
def resignManifest : Manifest :=
  ((Manifest.from_signing_key tagHash "K").sign fsResign tagHash tagSign "K"
      ["d/model.safetensors", "d/tensor-man.signature"]).toOption.getD
    ⟨none, [], ""⟩

/-- C5: evaluation at the failing input.  Signing a directory that already
contains `tensor-man.signature` (1) resolves the old signature file into
the path set — `sign` has no exclusion step, only `verify` retains — so
(2) its digest is hashed into the new manifest, and consequently (3) a
later verify run of the same directory (whose path list drops the
signature file, as `verify` does) fails the checksum comparison against
that manifest. -/
theorem C5_sign_includes_existing_signature_file :
    get_paths_of_interest_dir noIndex noOnnx none
        ["d/model.safetensors", "d/tensor-man.signature"]
      = .ok ["d/model.safetensors", "d/tensor-man.signature"] ∧
    resignManifest.checksums
      = [("d/model.safetensors", tagHash "MS"),
         ("d/tensor-man.signature", tagHash "OLD")] ∧
    (Manifest.from_public_key tagHash "K").verify fsResign tagHash tagVerify "K"
        (["d/model.safetensors", "d/tensor-man.signature"].filter
          (fun p => p ≠ "d/tensor-man.signature"))
        resignManifest
      = .error "invalid checksum for d/tensor-man.signature" := by
  decide

/-- A 4-bit ONNX initializer with a single element. -/
def uint4Scalarish : TensorProto :=
  { name := "w", dims := [1], data_type := 21, doc_string := "",
    data_location := 0, external_data := [], metadata_props := [] }

/-- C6 counterexample: for the UINT4 (code 21, 4 bits) tensor of one
element the code computes `4 * 1 / 8 = 0` bytes, while the claimed
`ceil(4 * 1 / 8) = 1`; the byte size is rounded *down*, not up. -/
theorem C6_counterexample :
    (onnxBuildTensorDescriptor uint4Scalarish).map TensorDescriptor.size = some 0 ∧
    specCeilByteSize 4 1 = 1 ∧
    (onnxBuildTensorDescriptor uint4Scalarish).map TensorDescriptor.size
      ≠ some (specCeilByteSize 4 1) := by
  decide

/-- Floor and ceiling of a division by 8 agree exactly on multiples of 8. -/
theorem floor_eq_ceil_div8_iff (n : Nat) : n / 8 = (n + 7) / 8 ↔ 8 ∣ n := by
  omega

/-- C6 as amended: the ONNX and GGUF descriptor builders compute the byte
size as `floor(bits * prod(shape) / 8)` — equal to the spec's ceiling
exactly when `8 ∣ bits * prod(shape)` — and an empty (scalar) shape gives
size 0. -/
theorem C6_amended_floor_byte_size (t : TensorProto) (bits : Nat)
    (hb : onnx_data_type_bits t.data_type = some bits) (g : GGUFTensorInfo) :
    ((t.dims = [] →
        (onnxBuildTensorDescriptor t).map TensorDescriptor.size = some 0) ∧
     (t.dims ≠ [] →
        (onnxBuildTensorDescriptor t).map TensorDescriptor.size
          = some (bits * t.dims.prod / 8) ∧
        (bits * t.dims.prod / 8 = specCeilByteSize bits t.dims.prod
          ↔ 8 ∣ bits * t.dims.prod))) ∧
    ((g.dimensions = [] → (ggufBuildTensorDescriptor g).size = 0) ∧
     (g.dimensions ≠ [] →
        (ggufBuildTensorDescriptor g).size
          = gguf_data_type_bits g.tensor_type * g.dimensions.prod / 8 ∧
        (gguf_data_type_bits g.tensor_type * g.dimensions.prod / 8
            = specCeilByteSize (gguf_data_type_bits g.tensor_type) g.dimensions.prod
          ↔ 8 ∣ gguf_data_type_bits g.tensor_type * g.dimensions.prod))) := by
  refine ⟨⟨?_, ?_⟩, ⟨?_, ?_⟩⟩
  · intro hd
    simp [onnxBuildTensorDescriptor, hd]
  · intro hd
    have hne : t.dims.isEmpty = false := by
      cases hdl : t.dims with
      | nil => exact absurd hdl hd
      | cons a l => rfl
    refine ⟨?_, ?_⟩
    · simp [onnxBuildTensorDescriptor, hne, hb]
    · exact floor_eq_ceil_div8_iff _
  · intro hd
    simp [ggufBuildTensorDescriptor, hd]
  · intro hd
    have hne : g.dimensions.isEmpty = false := by
      cases hdl : g.dimensions with
      | nil => exact absurd hdl hd
      | cons a l => rfl
    exact ⟨by simp [ggufBuildTensorDescriptor, hne], floor_eq_ceil_div8_iff _⟩

/-- Witness for C6 (amended) at a UINT4 tensor of three elements and a
Q6K GGUF tensor. -/
theorem C6_amended_witness :
    onnx_data_type_bits 21 = some 4 ∧
    (onnxBuildTensorDescriptor
        ⟨"w", [3], 21, "", 0, [], []⟩).map TensorDescriptor.size
      = some (4 * 3 / 8) ∧
    (ggufBuildTensorDescriptor ⟨"g", [5], .q6k⟩).size = 6 * 5 / 8 :=
  have h := C6_amended_floor_byte_size ⟨"w", [3], 21, "", 0, [], []⟩ 4 (by decide)
    ⟨"g", [5], .q6k⟩
  ⟨by decide, (h.1.2 (by decide)).1, (h.2.2 (by decide)).1⟩

/-- C8: for a SafeTensors index file, `paths_to_sign` returns the index
path first, followed by exactly the distinct shard paths — each
`weight_map` value resolved against the index's parent directory —
with no duplicates among the shards. -/
theorem C8_index_paths_to_sign
    (readIndex : String → Option (List (String × String)))
    (ip base : String) (wm : List (String × String))
    (hidx : is_safetensors_index ip = true)
    (hparent : parentDir ip = some base)
    (hread : readIndex ip = some wm)
    (r : List String)
    (hr : safetensorsPathsToSign readIndex ip = .ok r) :
    r.head? = some ip ∧
    (∀ q, q ∈ r ↔ q = ip ∨ ∃ kv ∈ wm, q = resolveRef base kv.2) ∧
    r.tail.Nodup := by
  unfold safetensorsPathsToSign at hr
  rw [hidx] at hr
  simp only [if_true] at hr
  rw [hparent, hread] at hr
  simp only [] at hr
  cases hr
  refine ⟨rfl, ?_, by simp [List.nodup_dedup]⟩
  intro q
  simp only [List.mem_cons, List.mem_dedup, List.mem_map]
  constructor
  · rintro (rfl | ⟨v, ⟨kv, hkv, rfl⟩, rfl⟩)
    · exact Or.inl rfl
    · exact Or.inr ⟨kv, hkv, rfl⟩
  · rintro (rfl | ⟨kv, hkv, rfl⟩)
    · exact Or.inl rfl
    · exact Or.inr ⟨kv.2, ⟨kv, hkv, rfl⟩, rfl⟩

/-- The S2 index reader: a `weight_map` with two tensor names mapping to
two distinct shard files. -/
def idxTwoShards : String → Option (List (String × String)) :=
  fun p =>
    if p = "dir/model.safetensors.index.json" then
      some [("w1", "m-00001-of-00002.safetensors"),
            ("w2", "m-00002-of-00002.safetensors")]
    else none

/-- The S2-style index reader whose two tensor names share one shard. -/
def idxSharedShard : String → Option (List (String × String)) :=
  fun p =>
    if p = "dir/model.safetensors.index.json" then
      some [("w1", "shard.safetensors"), ("w2", "shard.safetensors")]
    else none

/-- Witness for C8 at the S2 example: two distinct shards give exactly
three paths, and two tensor names sharing one shard give exactly two. -/
theorem C8_witness :
    safetensorsPathsToSign idxTwoShards "dir/model.safetensors.index.json"
      = .ok ["dir/model.safetensors.index.json",
             "dir/m-00001-of-00002.safetensors",
             "dir/m-00002-of-00002.safetensors"] ∧
    (safetensorsPathsToSign idxSharedShard "dir/model.safetensors.index.json"
      = .ok ["dir/model.safetensors.index.json", "dir/shard.safetensors"]) ∧
    (∀ q, q ∈ ["dir/model.safetensors.index.json",
               "dir/m-00001-of-00002.safetensors",
               "dir/m-00002-of-00002.safetensors"]
      ↔ q = "dir/model.safetensors.index.json" ∨
        ∃ kv ∈ [("w1", "m-00001-of-00002.safetensors"),
                ("w2", "m-00002-of-00002.safetensors")],
          q = resolveRef "dir" kv.2) :=
  ⟨by decide, by decide,
   (C8_index_paths_to_sign idxTwoShards "dir/model.safetensors.index.json" "dir"
      [("w1", "m-00001-of-00002.safetensors"), ("w2", "m-00002-of-00002.safetensors")]
      (by decide) (by decide) (by decide)
      ["dir/model.safetensors.index.json", "dir/m-00001-of-00002.safetensors",
       "dir/m-00002-of-00002.safetensors"] (by decide)).2.1⟩

end TensorMan
